import Mathlib

/-!
Shallow embedding of the Spotify playlist generator script
(`Spotipy Generator.py`). The provider (the `sp` object of the spotipy
library) is modelled as a record of responses, each either a value or a
raised exception message; every function of the script is embedded as a
pure function that returns its result together with the list of provider
requests it issued, the lines it printed, and the provider-side state
(the playlists existing on the provider account).
-/

/-- Message of a raised Python exception (the script only ever formats
exceptions into strings). -/
abbrev PyErr := String

/-- An artist object as consumed by the script: the two dictionary keys
`get_top_artists` reads are `id` and `name`. -/
structure Artist where
  id : String
  name : String
deriving DecidableEq, Repr

/-- A track object as consumed by the script: `get_recommendations` reads
only the key `id`. -/
structure Track where
  id : String
deriving DecidableEq, Repr

/-- A playlist object as consumed by the script: `create_playlist` reads
`playlist['id']` and `playlist['external_urls']['spotify']`. -/
structure PlaylistObj where
  id : String
  external_urls_spotify : String
deriving DecidableEq, Repr

/-- The current-user object as consumed by `main`: keys `id` and
`display_name`. -/
structure UserInfo where
  id : String
  display_name : String
deriving DecidableEq, Repr

/-- One request issued to the provider, with its full payload. -/
inductive ProviderCall where
  | topArtists (time_range : String) (limit : Nat)
  | recommendations (seed_artists : List String) (limit : Nat)
  | userPlaylistCreate (user : String) (name : String) (isPublic : Bool)
      (description : String)
  | playlistAddItems (playlist_id : String) (track_ids : List String)
  | currentUser
deriving DecidableEq, Repr

/-- The provider (`sp`): for every request, either the parsed response the
script goes on to read, or a raised exception. A malformed response (a
missing dictionary key) also raises inside the `try` blocks, so it is
modelled as an `Except.error` as well. -/
structure Provider where
  current_user_resp : Except PyErr UserInfo
  top_artists_resp : String → Nat → Except PyErr (List Artist)
  recommendations_resp : List String → Nat → Except PyErr (List Track)
  user_playlist_create_resp : String → String → Bool → String →
      Except PyErr PlaylistObj
  playlist_add_items_resp : String → List String → Except PyErr Unit

/-- Provider-side account state: the playlists that exist on the account.
`user_playlist_create` adds one; no operation of the script ever removes
one. -/
structure ProvState where
  playlists : List PlaylistObj
deriving DecidableEq, Repr

/-- The authentication environment: what the `SpotifyOAuth` / `Spotify`
construction in `authenticate_spotify` yields for a given client id and
secret (either an authenticated provider handle or a raised exception). -/
structure AuthEnv where
  oauth_result : String → String → Except PyErr Provider

/-- Result of a fetch stage: the ids the function returns, the provider
requests it issued, and the lines it printed. -/
structure FetchResult where
  ids : List String
  calls : List ProviderCall
  printed : List String
deriving DecidableEq, Repr

/-- The redirect address constant of the script. -/
def REDIRECT_URI : String := "http://127.0.0.1:8888/callback"

/-- The scope string constant of the script. -/
def SCOPES : String := "user-top-read playlist-modify-public playlist-modify-private"

/-- The fixed playlist description passed by `create_playlist` to
`sp.user_playlist_create`. -/
def playlistDescription : String :=
  "Playlist générée par un script Python avec Spotipy."

/-- Embedding of `authenticate_spotify`: builds the provider handle from
the environment; on a raised exception prints the diagnostic and returns
`None`. -/
def authenticate_spotify (env : AuthEnv) (client_id client_secret : String) :
    Option Provider × List String :=
  match env.oauth_result client_id client_secret with
  | Except.ok sp =>
      (some sp, ["Authentification auprès de Spotify...",
                 "Authentification réussie !"])
  | Except.error e =>
      (none, ["Authentification auprès de Spotify...",
              s!"Erreur lors de l\x27authentification : {e}",
              "Veuillez vérifier votre Client ID, Client Secret et Redirect URI."])

/-- Embedding of `get_top_artists`: one provider request; on success maps
`artist['id']` over `results['items']`; on a raised exception prints the
diagnostic and returns the empty list. -/
def get_top_artists (sp : Provider) (limit : Nat) (time_range : String) :
    FetchResult :=
  let header := s!"Récupération de vos {limit} artistes préférés..."
  match sp.top_artists_resp time_range limit with
  | Except.ok top_artists =>
      let artist_ids := top_artists.map Artist.id
      let artist_names := top_artists.map Artist.name
      { ids := artist_ids,
        calls := [ProviderCall.topArtists time_range limit],
        printed := [header,
          "Vos artistes favoris sont : " ++ String.intercalate ", " artist_names] }
  | Except.error e =>
      { ids := [],
        calls := [ProviderCall.topArtists time_range limit],
        printed := [header, s!"Erreur lors de la récupération des artistes : {e}"] }

/-- Embedding of `get_recommendations`: short-circuits on an empty seed
list without any provider request; otherwise one provider request, mapping
`track['id']` over `recommendations['tracks']` on success, and the empty
list on a raised exception. -/
def get_recommendations (sp : Provider) (seed_artists : List String)
    (limit : Nat) : FetchResult :=
  let header := "Recherche de recommandations musicales..."
  if seed_artists = [] then
    { ids := [],
      calls := [],
      printed := [header,
        "Aucun artiste de base fourni, impossible d\x27obtenir des recommandations."] }
  else
    match sp.recommendations_resp seed_artists limit with
    | Except.ok tracks =>
        let track_ids := tracks.map Track.id
        let n := track_ids.length
        { ids := track_ids,
          calls := [ProviderCall.recommendations seed_artists limit],
          printed := [header, s!"{n} recommandations trouvées."] }
    | Except.error e =>
        { ids := [],
          calls := [ProviderCall.recommendations seed_artists limit],
          printed := [header,
            s!"Erreur lors de la recherche de recommandations : {e}"] }

/-- Which exit of `create_playlist` was taken: the empty-list early return,
the success path, or the `except` branch. -/
inductive PublishOutcome where
  | skipped
  | published (url : String)
  | failed (err : PyErr)
deriving DecidableEq, Repr

/-- Result of `create_playlist`: the Python return value (`None` on every
path, hence an `Option PlaylistObj` that is always `none`), the exit
taken, the provider requests issued, the lines printed, and the resulting
provider state. -/
structure PublishResult where
  ret : Option PlaylistObj
  outcome : PublishOutcome
  calls : List ProviderCall
  printed : List String
  state : ProvState
deriving DecidableEq, Repr

/-- The forty-dash separator line printed by `create_playlist`. -/
def dashLine : String := String.mk (List.replicate 40 (Char.ofNat 45))

/-- Embedding of `create_playlist`: early return on an empty track list;
otherwise `sp.user_playlist_create` (a successful creation adds the
playlist to the provider state) followed by `sp.playlist_add_items`; any
raised exception is caught and printed. -/
def create_playlist (sp : Provider) (st : ProvState) (user_id : String)
    (track_ids : List String) (playlist_name : String) : PublishResult :=
  if track_ids = [] then
    { ret := none, outcome := PublishOutcome.skipped, calls := [],
      printed := ["Aucun titre à ajouter, la playlist ne sera pas créée."],
      state := st }
  else
    let header := s!"Création de la playlist \x27{playlist_name}\x27..."
    match sp.user_playlist_create_resp user_id playlist_name false
        playlistDescription with
    | Except.error e =>
        { ret := none, outcome := PublishOutcome.failed e,
          calls := [ProviderCall.userPlaylistCreate user_id playlist_name false
                      playlistDescription],
          printed := [header, s!"Erreur lors de la création de la playlist : {e}"],
          state := st }
    | Except.ok playlist =>
        let st1 : ProvState := { playlists := st.playlists ++ [playlist] }
        let playlist_id := playlist.id
        match sp.playlist_add_items_resp playlist_id track_ids with
        | Except.error e =>
            { ret := none, outcome := PublishOutcome.failed e,
              calls := [ProviderCall.userPlaylistCreate user_id playlist_name
                          false playlistDescription,
                        ProviderCall.playlistAddItems playlist_id track_ids],
              printed := [header,
                s!"Erreur lors de la création de la playlist : {e}"],
              state := st1 }
        | Except.ok _ =>
            { ret := none,
              outcome := PublishOutcome.published playlist.external_urls_spotify,
              calls := [ProviderCall.userPlaylistCreate user_id playlist_name
                          false playlistDescription,
                        ProviderCall.playlistAddItems playlist_id track_ids],
              printed := [header, dashLine,
                s!"🎉 Succès ! La playlist \x27{playlist_name}\x27 a été créée sur votre compte Spotify.",
                "URL de la playlist : " ++ playlist.external_urls_spotify,
                dashLine],
              state := st1 }

/-- How a whole run of `main` ended: rejected empty credentials,
authentication returned `None`, the current-user lookup raised, or it
reached `create_playlist` with the given exit. -/
inductive RunOutcome where
  | rejectedEmptyCredentials
  | authFailed
  | userLookupFailed (err : PyErr)
  | finished (pub : PublishOutcome)
deriving DecidableEq, Repr

/-- Result of a whole run of `main`. -/
structure RunResult where
  outcome : RunOutcome
  calls : List ProviderCall
  printed : List String
  state : ProvState
deriving DecidableEq, Repr

/-- Embedding of `main` (the credential prompt replaced by the two string
arguments): rejects empty credentials, authenticates, looks up the current
user, then runs the three stages with the literal arguments of the script
(limit 5, medium term, limit 25, the fixed playlist name). -/
def main_run (env : AuthEnv) (st : ProvState)
    (client_id client_secret : String) : RunResult :=
  let banner := "--- Lancement du générateur de playlist Spotify ---"
  if client_id = "" ∨ client_secret = "" then
    { outcome := RunOutcome.rejectedEmptyCredentials, calls := [],
      printed := [banner,
        "ERREUR : Le Client ID et le Client Secret ne peuvent pas être vides."],
      state := st }
  else
    match authenticate_spotify env client_id client_secret with
    | (none, p1) =>
        { outcome := RunOutcome.authFailed, calls := [],
          printed := banner :: p1, state := st }
    | (some sp, p1) =>
        match sp.current_user_resp with
        | Except.error e =>
            { outcome := RunOutcome.userLookupFailed e,
              calls := [ProviderCall.currentUser],
              printed := banner :: p1 ++
                [s!"Impossible de récupérer les informations de l\x27utilisateur : {e}"],
              state := st }
        | Except.ok user_info =>
            let user_id := user_info.id
            let dn := user_info.display_name
            let ta := get_top_artists sp 5 "medium_term"
            let top_artist_ids := ta.ids
            let rec_ := get_recommendations sp top_artist_ids 25
            let recommended_track_ids := rec_.ids
            let pub := create_playlist sp st user_id recommended_track_ids
              "Découvertes Python 🤖"
            { outcome := RunOutcome.finished pub.outcome,
              calls := ProviderCall.currentUser :: (ta.calls ++ rec_.calls ++ pub.calls),
              printed := banner :: p1 ++
                [s!"Connecté en tant que : {dn} (ID: {user_id})"] ++
                ta.printed ++ rec_.printed ++ pub.printed,
              state := pub.state }

/-! Shared concrete instances used to evaluate the embedding on closed
inputs, and helper lemmas about the call traces. -/

/-- A concrete fake provider whose every request succeeds. -/
def okProvider : Provider where
  current_user_resp := Except.ok { id := "u1", display_name := "User One" }
  top_artists_resp := fun _ _ =>
    Except.ok [{ id := "A1", name := "Artist One" },
               { id := "A2", name := "Artist Two" }]
  recommendations_resp := fun _ _ =>
    Except.ok [{ id := "t1" }, { id := "t2" }, { id := "t3" }]
  user_playlist_create_resp := fun _ _ _ _ =>
    Except.ok { id := "pl1", external_urls_spotify := "https://x/pl1" }
  playlist_add_items_resp := fun _ _ => Except.ok ()

/-- An authentication environment that always yields the given provider. -/
def mkEnv (sp : Provider) : AuthEnv where
  oauth_result := fun _ _ => Except.ok sp

/-- An authentication environment whose OAuth construction always raises. -/
def failEnv : AuthEnv where
  oauth_result := fun _ _ => Except.error "bad credentials"

/-- The fake provider with a failing append call. -/
def appendFailProvider : Provider :=
  { okProvider with playlist_add_items_resp := fun _ _ => Except.error "append failed" }

/-- The fake provider with a failing top-artists call. -/
def topFailProvider : Provider :=
  { okProvider with top_artists_resp := fun _ _ => Except.error "timeout" }

/-- The fake provider with a failing current-user call. -/
def userFailProvider : Provider :=
  { okProvider with current_user_resp := Except.error "no user" }

/-- Two artist items carrying the same artist id. -/
def duplicatedItems : List Artist :=
  [{ id := "A1", name := "Artist One" }, { id := "A1", name := "Artist One" }]

/-- A provider that answers a top-artists request for limit 1 with two
items carrying the same artist id. -/
def overLimitProvider : Provider :=
  { okProvider with top_artists_resp := fun _ _ => Except.ok duplicatedItems }

/-- The top-artists stage issues exactly one provider request, whatever
the response. -/
lemma get_top_artists_calls (sp : Provider) (limit : Nat) (tr : String) :
    (get_top_artists sp limit tr).calls = [ProviderCall.topArtists tr limit] := by
  unfold get_top_artists
  cases sp.top_artists_resp tr limit <;> rfl

/-- The recommendations stage issues no request or exactly its one
request. -/
lemma get_recommendations_calls (sp : Provider) (seeds : List String)
    (limit : Nat) :
    (get_recommendations sp seeds limit).calls = [] ∨
    (get_recommendations sp seeds limit).calls =
      [ProviderCall.recommendations seeds limit] := by
  unfold get_recommendations
  by_cases h : seeds = []
  · simp [h]
  · cases sp.recommendations_resp seeds limit <;> simp [h]

/-- A run with an empty client id or secret issues no provider request. -/
lemma main_run_calls_rejected (env : AuthEnv) (st : ProvState)
    (cid cs : String) (h : cid = "" ∨ cs = "") :
    (main_run env st cid cs).calls = [] := by
  simp [main_run, h]

/-- A run whose OAuth construction raises issues no provider request. -/
lemma main_run_calls_authfail (env : AuthEnv) (st : ProvState)
    (cid cs : String) (e : PyErr)
    (hauth : env.oauth_result cid cs = Except.error e) :
    (main_run env st cid cs).calls = [] := by
  by_cases h : cid = "" ∨ cs = ""
  · simp [main_run, h]
  · push_neg at h
    simp [main_run, h.1, h.2, authenticate_spotify, hauth]

/-- A run whose current-user lookup raises issues only that request. -/
lemma main_run_calls_userfail (env : AuthEnv) (st : ProvState)
    (cid cs : String) (sp : Provider) (e : PyErr)
    (hcid : cid ≠ "") (hcs : cs ≠ "")
    (hauth : env.oauth_result cid cs = Except.ok sp)
    (hcu : sp.current_user_resp = Except.error e) :
    (main_run env st cid cs).calls = [ProviderCall.currentUser] := by
  simp [main_run, hcid, hcs, authenticate_spotify, hauth, hcu]

/-- In a run that reaches the stages, the trace is the current-user
request followed by the traces of the three stages in order. -/
lemma main_run_calls_ok (env : AuthEnv) (st : ProvState)
    (cid cs : String) (sp : Provider) (ui : UserInfo)
    (hcid : cid ≠ "") (hcs : cs ≠ "")
    (hauth : env.oauth_result cid cs = Except.ok sp)
    (hcu : sp.current_user_resp = Except.ok ui) :
    (main_run env st cid cs).calls = ProviderCall.currentUser ::
      ((get_top_artists sp 5 "medium_term").calls ++
       (get_recommendations sp (get_top_artists sp 5 "medium_term").ids 25).calls ++
       (create_playlist sp st ui.id
         (get_recommendations sp (get_top_artists sp 5 "medium_term").ids 25).ids
         "Découvertes Python 🤖").calls) := by
  simp [main_run, hcid, hcs, authenticate_spotify, hauth, hcu]

/-- Claim C3: for every provider and limit, `get_recommendations` with an
empty seed-artist list returns an empty result and issues no provider
request (a defined no-op, not an error). -/
theorem recommendations_empty_seeds_noop (sp : Provider) (limit : Nat) :
    (get_recommendations sp [] limit).ids = [] ∧
    (get_recommendations sp [] limit).calls = [] :=
  ⟨rfl, rfl⟩

/-- Claim C4: for every provider, state, user id and name,
`create_playlist` with an empty track list issues zero provider requests,
leaves the provider state unchanged (no playlist created), and takes the
defined skipped exit rather than the error exit. -/
theorem publish_empty_tracks_skipped (sp : Provider) (st : ProvState)
    (user_id name : String) :
    (create_playlist sp st user_id [] name).calls = [] ∧
    (create_playlist sp st user_id [] name).outcome = PublishOutcome.skipped ∧
    (create_playlist sp st user_id [] name).state = st :=
  ⟨rfl, rfl, rfl⟩

/-- Claim C10: on every input, `create_playlist` returns `None` — on the
skipped exit, on the success exit and on the error exit alike — so its
caller can never distinguish the outcomes from the returned value. -/
theorem publish_always_returns_none (sp : Provider) (st : ProvState)
    (user_id : String) (track_ids : List String) (name : String) :
    (create_playlist sp st user_id track_ids name).ret = none := by
  by_cases h : track_ids = []
  · simp [create_playlist, h]
  · cases h1 : sp.user_playlist_create_resp user_id name false playlistDescription with
    | error e => simp [create_playlist, h, h1]
    | ok pl =>
      cases h2 : sp.playlist_add_items_resp pl.id track_ids with
      | error e => simp [create_playlist, h, h1, h2]
      | ok u => simp [create_playlist, h, h1, h2]

/-- Claim C5: for every non-empty track list, provided the provider's
create call succeeds, `create_playlist` issues exactly one create request
followed by exactly one append request whose payload is the whole track
list in its original order. -/
theorem publish_one_create_one_append (sp : Provider) (st : ProvState)
    (user_id : String) (track_ids : List String) (name : String)
    (pl : PlaylistObj)
    (hne : track_ids ≠ [])
    (hcreate : sp.user_playlist_create_resp user_id name false
        playlistDescription = Except.ok pl) :
    (create_playlist sp st user_id track_ids name).calls =
      [ProviderCall.userPlaylistCreate user_id name false playlistDescription,
       ProviderCall.playlistAddItems pl.id track_ids] := by
  cases h2 : sp.playlist_add_items_resp pl.id track_ids with
  | error e => simp [create_playlist, hne, hcreate, h2]
  | ok u => simp [create_playlist, hne, hcreate, h2]

/-- Witness for claim C5 at a concrete fake provider and three tracks. -/
theorem publish_one_create_one_append_witness :
    (create_playlist okProvider ⟨[]⟩ "u1" ["t1", "t2", "t3"] "My List").calls =
      [ProviderCall.userPlaylistCreate "u1" "My List" false playlistDescription,
       ProviderCall.playlistAddItems "pl1" ["t1", "t2", "t3"]] :=
  publish_one_create_one_append okProvider ⟨[]⟩ "u1" ["t1", "t2", "t3"]
    "My List" { id := "pl1", external_urls_spotify := "https://x/pl1" }
    (by decide) rfl

/-- Claim C2: invariant over every authenticated run — a playlist-create
request appears in the trace only if the recommendations stage obtained at
least one track id, and a recommendations request only if the top-artists
stage obtained at least one artist id. -/
theorem pipeline_create_and_rec_guarded (env : AuthEnv) (st : ProvState)
    (cid cs : String) (sp : Provider)
    (hauth : env.oauth_result cid cs = Except.ok sp) :
    (∀ u n p d, ProviderCall.userPlaylistCreate u n p d ∈
        (main_run env st cid cs).calls →
      (get_recommendations sp (get_top_artists sp 5 "medium_term").ids 25).ids ≠ []) ∧
    (∀ s l, ProviderCall.recommendations s l ∈ (main_run env st cid cs).calls →
      (get_top_artists sp 5 "medium_term").ids ≠ []) := by
  by_cases h0 : cid = "" ∨ cs = ""
  · rw [main_run_calls_rejected env st cid cs h0]
    constructor
    · intro u n p d hmem
      exact absurd hmem (List.not_mem_nil _)
    · intro s l hmem
      exact absurd hmem (List.not_mem_nil _)
  · push_neg at h0
    cases hcu : sp.current_user_resp with
    | error e =>
        rw [main_run_calls_userfail env st cid cs sp e h0.1 h0.2 hauth hcu]
        constructor
        · intro u n p d hmem
          simp at hmem
        · intro s l hmem
          simp at hmem
    | ok ui =>
        rw [main_run_calls_ok env st cid cs sp ui h0.1 h0.2 hauth hcu,
          get_top_artists_calls]
        constructor
        · intro u n p d hmem hids
          rw [hids] at hmem
          rcases get_recommendations_calls sp
              (get_top_artists sp 5 "medium_term").ids 25 with h | h <;>
            rw [h] at hmem <;> simp [create_playlist] at hmem
        · intro s l hmem hids
          rw [hids] at hmem
          simp [get_recommendations, create_playlist] at hmem

/-- Witness for claim C2 at a concrete fake provider. -/
theorem pipeline_create_and_rec_guarded_witness :
    (∀ u n p d, ProviderCall.userPlaylistCreate u n p d ∈
        (main_run (mkEnv okProvider) ⟨[]⟩ "id" "secret").calls →
      (get_recommendations okProvider
        (get_top_artists okProvider 5 "medium_term").ids 25).ids ≠ []) ∧
    (∀ s l, ProviderCall.recommendations s l ∈
        (main_run (mkEnv okProvider) ⟨[]⟩ "id" "secret").calls →
      (get_top_artists okProvider 5 "medium_term").ids ≠ []) :=
  pipeline_create_and_rec_guarded (mkEnv okProvider) ⟨[]⟩ "id" "secret"
    okProvider rfl

/-- Claim C6: a provider error during the top-artists fetch yields an
empty artist list rather than aborting, and the run then flows through the
remaining stages to the skipped exit, not the failed one. -/
theorem top_artists_failure_degrades (env : AuthEnv) (st : ProvState)
    (cid cs : String) (sp : Provider) (ui : UserInfo) (e : PyErr)
    (hcid : cid ≠ "") (hcs : cs ≠ "")
    (hauth : env.oauth_result cid cs = Except.ok sp)
    (hcu : sp.current_user_resp = Except.ok ui)
    (herr : sp.top_artists_resp "medium_term" 5 = Except.error e) :
    (get_top_artists sp 5 "medium_term").ids = [] ∧
    (main_run env st cid cs).outcome =
      RunOutcome.finished PublishOutcome.skipped := by
  have h1 : (get_top_artists sp 5 "medium_term").ids = [] := by
    simp [get_top_artists, herr]
  refine ⟨h1, ?_⟩
  simp [main_run, hcid, hcs, authenticate_spotify, hauth, hcu, h1,
    get_recommendations, create_playlist]

/-- Witness for claim C6 at a provider whose top-artists call raises. -/
theorem top_artists_failure_degrades_witness :
    (get_top_artists topFailProvider 5 "medium_term").ids = [] ∧
    (main_run (mkEnv topFailProvider) ⟨[]⟩ "id" "secret").outcome =
      RunOutcome.finished PublishOutcome.skipped :=
  top_artists_failure_degrades (mkEnv topFailProvider) ⟨[]⟩ "id" "secret"
    topFailProvider { id := "u1", display_name := "User One" } "timeout"
    (by decide) (by decide) rfl rfl rfl

/-- Counterexample to claim C7 as stated: `get_top_artists` does not
enforce the limit or deduplicate locally — with limit 1 and a provider
response of two items sharing one artist id, it returns both ids, so the
result exceeds the limit and holds a duplicate. -/
theorem top_artists_limit_counterexample :
    ¬ ((get_top_artists overLimitProvider 1 "medium_term").ids.length ≤ 1 ∧
       (get_top_artists overLimitProvider 1 "medium_term").ids.Nodup) := by
  intro h
  have : (get_top_artists overLimitProvider 1 "medium_term").ids = ["A1", "A1"] := by
    simp [get_top_artists, overLimitProvider, duplicatedItems]
  rw [this] at h
  simp at h

/-- Claim C7 amended: `get_top_artists` forwards a successful provider
response unchanged — it returns exactly the item ids in provider order —
so the result has at most L entries and no duplicated id whenever the
provider response itself has at most L items and pairwise-distinct ids
(the bound and ordering the spec delegates to the provider). -/
theorem top_artists_forwards_provider (sp : Provider) (L : Nat) (tr : String)
    (items : List Artist)
    (h : sp.top_artists_resp tr L = Except.ok items) :
    (get_top_artists sp L tr).ids = items.map Artist.id ∧
    (items.length ≤ L → (get_top_artists sp L tr).ids.length ≤ L) ∧
    ((items.map Artist.id).Nodup → (get_top_artists sp L tr).ids.Nodup) := by
  have h1 : (get_top_artists sp L tr).ids = items.map Artist.id := by
    simp [get_top_artists, h]
  refine ⟨h1, ?_, ?_⟩
  · intro hlen
    rw [h1]
    simpa using hlen
  · intro hd
    rw [h1]
    exact hd

/-- Witness for the amended claim C7 at a concrete fake provider. -/
theorem top_artists_forwards_provider_witness :
    (get_top_artists okProvider 5 "medium_term").ids = ["A1", "A2"] ∧
    (get_top_artists okProvider 5 "medium_term").ids.length ≤ 5 ∧
    (get_top_artists okProvider 5 "medium_term").ids.Nodup := by
  have h := top_artists_forwards_provider okProvider 5 "medium_term"
    [{ id := "A1", name := "Artist One" }, { id := "A2", name := "Artist Two" }] rfl
  exact ⟨h.1, h.2.1 (by decide), h.2.2 (by decide)⟩

/-- Claim C8: on a fully successful run, the create request carries the
orchestrator-supplied name "Découvertes Python 🤖", non-public visibility
and the fixed description, the run ends on the published exit, and the
printed success report carries the playlist external URL. -/
theorem successful_run_playlist_attributes (env : AuthEnv) (st : ProvState)
    (cid cs : String) (sp : Provider) (ui : UserInfo)
    (artists : List Artist) (tracks : List Track) (pl : PlaylistObj)
    (hcid : cid ≠ "") (hcs : cs ≠ "")
    (hauth : env.oauth_result cid cs = Except.ok sp)
    (hcu : sp.current_user_resp = Except.ok ui)
    (hart : sp.top_artists_resp "medium_term" 5 = Except.ok artists)
    (hartne : artists ≠ [])
    (hrec : sp.recommendations_resp (artists.map Artist.id) 25 = Except.ok tracks)
    (htrne : tracks ≠ [])
    (hcreate : sp.user_playlist_create_resp ui.id "Découvertes Python 🤖" false
        playlistDescription = Except.ok pl)
    (happend : sp.playlist_add_items_resp pl.id (tracks.map Track.id) =
        Except.ok ()) :
    (main_run env st cid cs).outcome =
      RunOutcome.finished (PublishOutcome.published pl.external_urls_spotify) ∧
    ProviderCall.userPlaylistCreate ui.id "Découvertes Python 🤖" false
      playlistDescription ∈ (main_run env st cid cs).calls ∧
    ("URL de la playlist : " ++ pl.external_urls_spotify) ∈
      (main_run env st cid cs).printed := by
  refine ⟨?_, ?_, ?_⟩ <;>
    simp [main_run, hcid, hcs, authenticate_spotify, hauth, hcu,
      get_top_artists, hart, get_recommendations, hrec, create_playlist,
      hcreate, happend, hartne, htrne, List.map_eq_nil_iff]

/-- Witness for claim C8 at a concrete fake provider. -/
theorem successful_run_playlist_attributes_witness :
    (main_run (mkEnv okProvider) ⟨[]⟩ "id" "secret").outcome =
      RunOutcome.finished (PublishOutcome.published "https://x/pl1") ∧
    ProviderCall.userPlaylistCreate "u1" "Découvertes Python 🤖" false
      playlistDescription ∈ (main_run (mkEnv okProvider) ⟨[]⟩ "id" "secret").calls ∧
    ("URL de la playlist : " ++ "https://x/pl1") ∈
      (main_run (mkEnv okProvider) ⟨[]⟩ "id" "secret").printed :=
  successful_run_playlist_attributes (mkEnv okProvider) ⟨[]⟩ "id" "secret"
    okProvider { id := "u1", display_name := "User One" }
    [{ id := "A1", name := "Artist One" }, { id := "A2", name := "Artist Two" }]
    [{ id := "t1" }, { id := "t2" }, { id := "t3" }]
    { id := "pl1", external_urls_spotify := "https://x/pl1" }
    (by decide) (by decide) rfl rfl rfl (by decide) rfl (by decide) rfl rfl

/-- Claim C1: when the append request raises after the create request
succeeded, the run ends on the failed exit with the publish diagnostic
printed, while the created playlist is still on the provider account (the
final provider state is the initial one plus that playlist — nothing
deletes it). -/
theorem append_failure_failed_no_rollback (env : AuthEnv) (st : ProvState)
    (cid cs : String) (sp : Provider) (ui : UserInfo)
    (artists : List Artist) (tracks : List Track) (pl : PlaylistObj) (e : PyErr)
    (hcid : cid ≠ "") (hcs : cs ≠ "")
    (hauth : env.oauth_result cid cs = Except.ok sp)
    (hcu : sp.current_user_resp = Except.ok ui)
    (hart : sp.top_artists_resp "medium_term" 5 = Except.ok artists)
    (hartne : artists ≠ [])
    (hrec : sp.recommendations_resp (artists.map Artist.id) 25 = Except.ok tracks)
    (htrne : tracks ≠ [])
    (hcreate : sp.user_playlist_create_resp ui.id "Découvertes Python 🤖" false
        playlistDescription = Except.ok pl)
    (happend : sp.playlist_add_items_resp pl.id (tracks.map Track.id) =
        Except.error e) :
    (main_run env st cid cs).outcome =
      RunOutcome.finished (PublishOutcome.failed e) ∧
    (main_run env st cid cs).state.playlists = st.playlists ++ [pl] ∧
    (s!"Erreur lors de la création de la playlist : {e}") ∈
      (main_run env st cid cs).printed := by
  refine ⟨?_, ?_, ?_⟩ <;>
    simp [main_run, hcid, hcs, authenticate_spotify, hauth, hcu,
      get_top_artists, hart, get_recommendations, hrec, create_playlist,
      hcreate, happend, hartne, htrne, List.map_eq_nil_iff]

/-- Witness for claim C1 at a provider whose append call raises. -/
theorem append_failure_failed_no_rollback_witness :
    (main_run (mkEnv appendFailProvider) ⟨[]⟩ "id" "secret").outcome =
      RunOutcome.finished (PublishOutcome.failed "append failed") ∧
    (main_run (mkEnv appendFailProvider) ⟨[]⟩ "id" "secret").state.playlists =
      [] ++ [{ id := "pl1", external_urls_spotify := "https://x/pl1" }] ∧
    (s!"Erreur lors de la création de la playlist : append failed") ∈
      (main_run (mkEnv appendFailProvider) ⟨[]⟩ "id" "secret").printed :=
  append_failure_failed_no_rollback (mkEnv appendFailProvider) ⟨[]⟩ "id" "secret"
    appendFailProvider { id := "u1", display_name := "User One" }
    [{ id := "A1", name := "Artist One" }, { id := "A2", name := "Artist Two" }]
    [{ id := "t1" }, { id := "t2" }, { id := "t3" }]
    { id := "pl1", external_urls_spotify := "https://x/pl1" } "append failed"
    (by decide) (by decide) rfl rfl rfl (by decide) rfl (by decide) rfl rfl

/-- Claim C9: a run with an empty client id or secret is rejected before
any provider request; a run whose authentication yields no session issues
no provider request; a run whose current-user lookup raises issues no
request beyond the current-user one, so no later stage is ever invoked. -/
theorem guards_stop_pipeline (env : AuthEnv) (st : ProvState)
    (cid cs : String) :
    (cid = "" ∨ cs = "" →
      (main_run env st cid cs).calls = [] ∧
      (main_run env st cid cs).outcome = RunOutcome.rejectedEmptyCredentials) ∧
    (∀ e, env.oauth_result cid cs = Except.error e →
      (main_run env st cid cs).calls = []) ∧
    (∀ sp e, env.oauth_result cid cs = Except.ok sp →
      sp.current_user_resp = Except.error e →
      ∀ c ∈ (main_run env st cid cs).calls, c = ProviderCall.currentUser) := by
  refine ⟨?_, ?_, ?_⟩
  · intro h
    exact ⟨main_run_calls_rejected env st cid cs h, by simp [main_run, h]⟩
  · intro e he
    exact main_run_calls_authfail env st cid cs e he
  · intro sp e hauth hcu c hc
    by_cases h0 : cid = "" ∨ cs = ""
    · rw [main_run_calls_rejected env st cid cs h0] at hc
      exact absurd hc (List.not_mem_nil _)
    · push_neg at h0
      rw [main_run_calls_userfail env st cid cs sp e h0.1 h0.2 hauth hcu] at hc
      simpa using hc

/-- Witness for claim C9 at concrete environments: a failing OAuth
construction, a failing current-user lookup, and empty credentials. -/
theorem guards_stop_pipeline_witness :
    (main_run failEnv ⟨[]⟩ "id" "secret").calls = [] ∧
    (∀ c ∈ (main_run (mkEnv userFailProvider) ⟨[]⟩ "id" "secret").calls,
      c = ProviderCall.currentUser) ∧
    (main_run (mkEnv okProvider) ⟨[]⟩ "" "secret").calls = [] :=
  ⟨(guards_stop_pipeline failEnv ⟨[]⟩ "id" "secret").2.1 "bad credentials" rfl,
   (guards_stop_pipeline (mkEnv userFailProvider) ⟨[]⟩ "id" "secret").2.2
     userFailProvider "no user" rfl rfl,
   ((guards_stop_pipeline (mkEnv okProvider) ⟨[]⟩ "" "secret").1 (Or.inl rfl)).1⟩
